import Mathlib

/-!
Shallow embedding of an Express MCP server: a session router that keeps an
in-memory registry of streamable HTTP transports keyed by the mcp-session-id
header (src/index.ts, with an alternate entrypoint among the unnamed sources),
and two weather tools that fetch and format National Weather Service data
(src/create-server.ts). Network effects are abstracted as oracle parameters
holding the fetched values; the SDK transport is modelled at its interface.
-/

namespace McpServer

/-- A streamable HTTP server transport as the router sees it. The SDK assigns
the session identifier only when it processes the handshake request (via the
sessionIdGenerator callback), so a freshly constructed transport carries none. -/
structure Transport where
  sessionId : Option String
  closed : Bool
deriving Repr, DecidableEq

/-- The in-memory session registry of src/index.ts:
const transports: Record of session id to StreamableHTTPServerTransport. -/
abbrev Registry := List (String × Transport)

/-- Lookup of transports[sid]. -/
def Registry.find : Registry → String → Option Transport
  | [], _ => none
  | (k, t) :: rest, sid => if k == sid then some t else Registry.find rest sid

/-- Assignment transports[sid] = t; a JS object binds each key once, so any
previous binding for the key is overwritten. -/
def Registry.store (reg : Registry) (sid : String) (t : Transport) : Registry :=
  (sid, t) :: reg.filter (fun e => e.1 != sid)

/-- Deletion of transports[sid] (the JS delete operator). -/
def Registry.erase (reg : Registry) (sid : String) : Registry :=
  reg.filter (fun e => e.1 != sid)

/-- A JSON-RPC request body; only its method field drives the routing decisions
made by the router, so the embedding keeps just that field. -/
structure Message where
  method : String
deriving Repr, DecidableEq

/-- Modelled from the spec: the SDK helper isInitializeRequest (imported from
the MCP SDK, not part of this repository) classifies a creation-class message
by its method field being the protocol handshake method. -/
def isInitializeRequest (m : Message) : Bool := m.method == "initialize"

/-- The responses the three /mcp route handlers can produce: a structured
JSON-RPC error envelope via res.status(s).json(...), a plain-text body via
res.status(s).send(...), or delegation to the transport of session sid via
transport.handleRequest(req, res, ...). -/
inductive Response where
  | jsonError (status : Nat) (code : Int) (message : String)
  | textBody (status : Nat) (body : String)
  | delegated (sid : String)
deriving Repr, DecidableEq

/-- A response is a structured error envelope exactly when it is a JSON body
carrying a numeric error code. -/
def Response.isStructured : Response → Bool
  | .jsonError _ _ _ => true
  | _ => false

/-- Observable steps taken by a route handler, in program order: storing a
transport in the registry, connecting the MCP server to it, and handing the
request body to transport.handleRequest. -/
inductive Event where
  | stored (sid : String)
  | connected (sid : String)
  | handled (sid : String)
deriving Repr, DecidableEq

/-- Outcome of one POST /mcp request: the registry afterwards, the response,
and the observable steps in the order the code performs them. -/
structure PostOutcome where
  registry : Registry
  response : Response
  events : List Event
deriving Repr, DecidableEq

/-- A transport as constructed by new StreamableHTTPServerTransport: the
sessionIdGenerator has not run yet, so no session id is assigned. -/
def newTransport : Transport := { sessionId := none, closed := false }

/-- The registry immediately after the pre-store step
(transports[newSessionId] = transport), before the handshake body is
processed: the record is present but the transport has no assigned id yet. -/
def regAfterStore (reg : Registry) (fresh : String) : Registry :=
  Registry.store reg fresh newTransport

/-- The registry after transport.handleRequest has processed the handshake
body: the sessionIdGenerator has run, assigning the minted id to the stored
transport. -/
def regAfterHandle (reg : Registry) (fresh : String) : Registry :=
  Registry.store (regAfterStore reg fresh) fresh
    { sessionId := some fresh, closed := false }

/-- POST /mcp of src/index.ts. The branches mirror the source chain:
first (sessionId && transports[sessionId]) reuses the session; else
(!sessionId && isInitializeRequest(req.body)) creates a new session under a
fresh id (randomUUID), pre-storing the transport before the body is handled;
else the request is rejected with the structured -32000 envelope. The fresh
argument stands for the value randomUUID would return. -/
def mcpPost (reg : Registry) (sessionId : Option String) (body : Message)
    (fresh : String) : PostOutcome :=
  match sessionId with
  | some sid =>
    if (Registry.find reg sid).isSome then
      { registry := reg, response := .delegated sid, events := [.handled sid] }
    else
      -- the creation branch tests !sessionId, so a present but unmatched id
      -- falls through to the rejection branch even for a handshake body
      { registry := reg
        response := .jsonError 400 (-32000) "Bad Request: Server not initialized"
        events := [] }
  | none =>
    if isInitializeRequest body then
      { registry := regAfterHandle reg fresh
        response := .delegated fresh
        events := [.stored fresh, .connected fresh, .handled fresh] }
    else
      { registry := reg
        response := .jsonError 400 (-32000) "Bad Request: Server not initialized"
        events := [] }

/-- Does the request carry a session id bound in the registry?
This is the JS condition (sessionId && transports[sessionId]). -/
def sessionKnown (reg : Registry) : Option String → Bool
  | some sid => (Registry.find reg sid).isSome
  | none => false

/-- POST /mcp of the alternate entrypoint (unnamed source): the creation
branch tests only isInitializeRequest(req.body) and the new id is
sessionId ?? randomUUID(), so a caller-supplied unmatched id on a handshake
request is adopted as the session id. -/
def mcpPostAdopt (reg : Registry) (sessionId : Option String) (body : Message)
    (fresh : String) : PostOutcome :=
  if sessionKnown reg sessionId then
    { registry := reg
      response := .delegated (sessionId.getD "")
      events := [.handled (sessionId.getD "")] }
  else if isInitializeRequest body then
    { registry := Registry.store (Registry.store reg (sessionId.getD fresh) newTransport)
        (sessionId.getD fresh)
        { sessionId := some (sessionId.getD fresh), closed := false }
      response := .delegated (sessionId.getD fresh)
      events := [.stored (sessionId.getD fresh), .connected (sessionId.getD fresh),
                 .handled (sessionId.getD fresh)] }
  else
    { registry := reg
      response := .jsonError 400 (-32000) "Bad Request: Invalid session"
      events := [] }

/-- The close callback installed at creation time (transport.onclose in
src/index.ts): if the transport has an assigned session id, the registry entry
under that id is deleted; otherwise nothing is removed. -/
def runOnClose (reg : Registry) (t : Transport) : Registry :=
  match t.sessionId with
  | some sid => Registry.erase reg sid
  | none => reg

/-- GET /mcp of src/index.ts: a known session id delegates to the transport
for streaming; a missing or unknown id yields the plain-text 400 response. -/
def mcpGet (reg : Registry) (sessionId : Option String) : Registry × Response :=
  match sessionId with
  | some sid =>
    match Registry.find reg sid with
    | some _ => (reg, .delegated sid)
    | none => (reg, .textBody 400 "Invalid session")
  | none => (reg, .textBody 400 "Invalid session")

/-- DELETE /mcp of src/index.ts. A known session id delegates to the
transport; modelled from the spec at the SDK boundary: handling a DELETE
terminates the session, which fires the close callback installed at creation,
removing the registry record keyed by the transport session id. A missing or
unknown id yields the plain-text 400 response. -/
def mcpDelete (reg : Registry) (sessionId : Option String) : Registry × Response :=
  match sessionId with
  | some sid =>
    match Registry.find reg sid with
    | some t => (runOnClose reg t, .delegated sid)
    | none => (reg, .textBody 400 "Invalid session")
  | none => (reg, .textBody 400 "Invalid session")

/-- The SIGINT loop body of src/index.ts: iterate the entries snapshot,
closing each transport in turn (each close wrapped in its own try/catch);
closing fires the close callback, which mutates the live registry. The second
component records which sessions had close invoked, in order. -/
def shutdownLoop : List (String × Transport) → Registry → Registry × List String
  | [], reg => (reg, [])
  | e :: rest, reg =>
    let next := shutdownLoop rest (runOnClose reg e.2)
    (next.1, e.1 :: next.2)

/-- Process shutdown (the SIGINT handler): close every transport in the
registry, iterating over a snapshot of its entries. -/
def shutdown (reg : Registry) : Registry × List String :=
  shutdownLoop reg reg

/-! Weather tools of src/create-server.ts. Network fetches performed by
makeNWSRequest are abstracted as oracle parameters carrying the parsed value,
with none standing for the null that makeNWSRequest returns on any failure. -/

def NWS_API_BASE : String := "https://api.weather.gov"

/-- JS string substitution (value || fallback): undefined and the empty string
are falsy, any other string is kept. -/
def jsStringOr (s : Option String) (fallback : String) : String :=
  match s with
  | none => fallback
  | some v => if v == "" then fallback else v

/-- JS number substitution (value || fallback): undefined and the number 0 are
falsy and yield the fallback text, any other number is printed. Temperatures in
the feed are integral, so the number is modelled as Int. -/
def jsNumberOr (n : Option Int) (fallback : String) : String :=
  match n with
  | none => fallback
  | some v => if v == 0 then fallback else toString v

/-- Minimal NWS alert feature shape used by the server. -/
structure AlertFeature where
  event : Option String
  areaDesc : Option String
  severity : Option String
  status : Option String
  headline : Option String
deriving Repr, DecidableEq

/-- formatAlert: one alert as a human-readable text block. -/
def formatAlert (f : AlertFeature) : String :=
  String.intercalate "\n"
    [ "Event: " ++ jsStringOr f.event "Unknown",
      "Area: " ++ jsStringOr f.areaDesc "Unknown",
      "Severity: " ++ jsStringOr f.severity "Unknown",
      "Status: " ++ jsStringOr f.status "Unknown",
      "Headline: " ++ jsStringOr f.headline "No headline",
      "---" ]

/-- NWS alerts GeoJSON wrapper; the features field may be absent
(the code guards with alertsData.features || []). -/
structure AlertsResponse where
  features : Option (List AlertFeature)
deriving Repr, DecidableEq

/-- Subset of the NWS forecast period fields consumed by the server. -/
structure ForecastPeriod where
  name : Option String
  temperature : Option Int
  temperatureUnit : Option String
  windSpeed : Option String
  windDirection : Option String
  shortForecast : Option String
deriving Repr, DecidableEq

/-- The lines of one formatted forecast period, before joining with newlines,
exactly as built in the formattedForecast map of src/create-server.ts. -/
def formatLines (p : ForecastPeriod) : List String :=
  [ jsStringOr p.name "Unknown" ++ ":",
    "Temperature: " ++ jsNumberOr p.temperature "Unknown" ++ "°" ++
      jsStringOr p.temperatureUnit "F",
    "Wind: " ++ jsStringOr p.windSpeed "Unknown" ++ " " ++
      jsStringOr p.windDirection "",
    jsStringOr p.shortForecast "No forecast available",
    "---" ]

/-- One formatted forecast period. -/
def formatPeriod (p : ForecastPeriod) : String :=
  String.intercalate "\n" (formatLines p)

/-- NWS points response, flattened to the one field the code reads
(pointsData.properties?.forecast, which may be absent). -/
structure PointsResponse where
  forecast : Option String
deriving Repr, DecidableEq

/-- NWS forecast response, flattened to the one field the code reads
(forecastData.properties?.periods, guarded with || []). -/
structure ForecastResponse where
  periods : Option (List ForecastPeriod)
deriving Repr, DecidableEq

/-- Result channel of a tool invocation. The envelope type can carry a
transport-level error, but the tool bodies of src/create-server.ts only ever
build success content blocks. -/
inductive ToolOutcome where
  | success (texts : List String)
  | transportError (code : Int)
deriving Repr, DecidableEq

/-- Whether a tool outcome is a transport-level error. -/
def ToolOutcome.isTransportError : ToolOutcome → Bool
  | .transportError _ => true
  | .success _ => false

/-- The alerts URL requested by get-alerts for an uppercased state code. -/
def alertsUrl (stateCode : String) : String :=
  NWS_API_BASE ++ "/alerts?area=" ++ stateCode

/-- The points URL requested by get-forecast; the toFixed(4) rendering of the
coordinates is abstracted by toString. -/
def pointsUrl (latitude longitude : Rat) : String :=
  NWS_API_BASE ++ "/points/" ++ toString latitude ++ "," ++ toString longitude

/-- The get-alerts tool body, with the alerts fetch passed as an oracle. -/
def getAlertsTool (state : String) (alertsData : Option AlertsResponse) :
    ToolOutcome :=
  let stateCode := state.toUpper
  match alertsData with
  | none => .success ["Failed to retrieve alerts data"]
  | some d =>
    let features := d.features.getD []
    if features.isEmpty then
      .success ["No active alerts for " ++ stateCode]
    else
      .success ["Active alerts for " ++ stateCode ++ ":\n\n" ++
        String.intercalate "\n" (features.map formatAlert)]

/-- The get-forecast tool body, with the two fetches passed as oracles; the
second oracle is consulted only when the forecast URL was discovered. -/
def getForecastTool (latitude longitude : Rat)
    (pointsData : Option PointsResponse)
    (forecastData : Option ForecastResponse) : ToolOutcome :=
  match pointsData with
  | none => .success ["Failed to retrieve grid point data for coordinates: " ++
      toString latitude ++ ", " ++ toString longitude ++
      ". This location may not be supported by the NWS API (only US locations are supported)."]
  | some pd =>
    match pd.forecast with
    | none => .success ["Failed to get forecast URL from grid point data"]
    | some _forecastUrl =>
      match forecastData with
      | none => .success ["Failed to retrieve forecast data"]
      | some fd =>
        let periods := fd.periods.getD []
        if periods.isEmpty then
          .success ["No forecast periods available"]
        else
          .success ["Forecast for " ++ toString latitude ++ ", " ++
            toString longitude ++ ":\n\n" ++
            String.intercalate "\n" (periods.map formatPeriod)]

/-- Upstream requests issued by a get-alerts invocation. -/
def getAlertsRequests (state : String) : List String :=
  [alertsUrl state.toUpper]

/-- Upstream requests issued by a get-forecast invocation: the points request
always, the discovered forecast URL only when the points fetch succeeded and
carried one. -/
def getForecastRequests (latitude longitude : Rat)
    (pointsData : Option PointsResponse) : List String :=
  pointsUrl latitude longitude ::
    (match pointsData with
     | some pd => match pd.forecast with
       | some url => [url]
       | none => []
     | none => [])

/-- The declared input shape of get-alerts: z.string().length(2), a string of
length exactly 2. -/
def alertsArgsOk (state : String) : Bool :=
  state.length == 2

/-- The declared input shape of get-forecast: z.number().min(-90).max(90) for
latitude and z.number().min(-180).max(180) for longitude, both inclusive. -/
def forecastArgsOk (latitude longitude : Rat) : Bool :=
  decide ((-90 : Rat) ≤ latitude ∧ latitude ≤ 90 ∧
    (-180 : Rat) ≤ longitude ∧ longitude ≤ 180)

/-- Modelled from the spec: the Conversation Handler validates tool arguments
against the declared input shape before dispatching to the tool body (the zod
shapes are declared in src/create-server.ts; their enforcement lives in the
MCP SDK tool registration, outside this repository). An out-of-shape argument
yields no tool outcome and issues no upstream request. -/
def callGetAlerts (state : String) (alertsData : Option AlertsResponse) :
    Option ToolOutcome × List String :=
  if alertsArgsOk state then
    (some (getAlertsTool state alertsData), getAlertsRequests state)
  else
    (none, [])

/-- Modelled from the spec: shape-validated dispatch for get-forecast, as for
get-alerts. -/
def callGetForecast (latitude longitude : Rat)
    (pointsData : Option PointsResponse)
    (forecastData : Option ForecastResponse) :
    Option ToolOutcome × List String :=
  if forecastArgsOk latitude longitude then
    (some (getForecastTool latitude longitude pointsData forecastData),
     getForecastRequests latitude longitude pointsData)
  else
    (none, [])

/-! Helper lemmas about the registry operations. -/

/-- Storing under a key makes it findable with the stored transport. -/
theorem Registry.find_store_self (reg : Registry) (k : String) (t : Transport) :
    Registry.find (Registry.store reg k t) k = some t := by
  simp [Registry.store, Registry.find]

/-- Erasing a key makes it unfindable. -/
theorem Registry.find_erase_self (reg : Registry) (k : String) :
    Registry.find (Registry.erase reg k) k = none := by
  induction reg with
  | nil => rfl
  | cons e rest ih =>
    by_cases h : e.1 = k
    · simpa [Registry.erase, List.filter_cons, h] using ih
    · simpa [Registry.erase, List.filter_cons, h, Registry.find] using ih

/-- When the transport carries an assigned session id, the close callback
erases that key. -/
theorem runOnClose_assigned (reg : Registry) (t : Transport) (sid : String)
    (h : t.sessionId = some sid) : runOnClose reg t = Registry.erase reg sid := by
  unfold runOnClose
  rw [h]

/-- The shutdown loop invokes close on every entry of the snapshot, in order. -/
theorem shutdownLoop_calls (l : List (String × Transport)) (reg : Registry) :
    (shutdownLoop l reg).2 = l.map Prod.fst := by
  induction l generalizing reg with
  | nil => rfl
  | cons e rest ih => simp [shutdownLoop, ih]

/-- Anything surviving the shutdown loop was in the starting registry and its
key is not among the snapshot keys, provided every snapshot transport carries
its own key as assigned session id. -/
theorem shutdownLoop_mem (l : List (String × Transport))
    (hwf : ∀ e ∈ l, (Prod.snd e).sessionId = some e.1) (reg : Registry) :
    ∀ x ∈ (shutdownLoop l reg).1, x ∈ reg ∧ x.1 ∉ l.map Prod.fst := by
  induction l generalizing reg with
  | nil => intro x hx; exact ⟨hx, by simp⟩
  | cons e rest ih =>
    intro x hx
    simp only [shutdownLoop] at hx
    have he : e.2.sessionId = some e.1 := hwf e (by simp)
    have step := ih (fun a ha => hwf a (by simp [ha])) (runOnClose reg e.2) x hx
    obtain ⟨hmem, hnot⟩ := step
    rw [runOnClose_assigned reg e.2 e.1 he] at hmem
    have hfil := List.mem_filter.mp hmem
    refine ⟨hfil.1, ?_⟩
    simp only [List.map_cons, List.mem_cons]
    rintro (hk | hk)
    · have : (x.1 != e.1) = true := hfil.2
      simp only [bne_iff_ne, ne_eq] at this
      exact this hk
    · exact hnot hk

/-! Claim theorems. -/

/-- C1 counterexample: on the src/index.ts router, a Submit whose body is a
handshake (creation-class) message but which carries a session identifier with
no matching record does not take the creation branch and does not adopt the
identifier: it is rejected with the structured -32000 envelope, no step is
taken, and the registry is unchanged. -/
theorem c1_counterexample :
    mcpPost [] (some "s1") { method := "initialize" } "fresh-1" =
      { registry := []
        response := .jsonError 400 (-32000) "Bad Request: Server not initialized"
        events := [] } := by
  rfl

/-- C1 amended: in src/index.ts the creation branch additionally requires the
session identifier to be absent, so a handshake request carrying an unmatched
identifier is rejected with the -32000 envelope and causes no registry
mutation; the caller-supplied identifier is adopted (registry gains a record
under it and the request is served) only by the alternate entrypoint, whose
creation branch tests message content alone. -/
theorem c1_amended (reg : Registry) (sid : String) (body : Message)
    (fresh : String) (hunk : Registry.find reg sid = none)
    (hinit : isInitializeRequest body = true) :
    (mcpPost reg (some sid) body fresh =
      { registry := reg
        response := .jsonError 400 (-32000) "Bad Request: Server not initialized"
        events := [] })
    ∧ (Registry.find (mcpPostAdopt reg (some sid) body fresh).registry sid =
        some { sessionId := some sid, closed := false }
      ∧ (mcpPostAdopt reg (some sid) body fresh).response = .delegated sid) := by
  constructor
  · simp [mcpPost, hunk]
  · have hk : sessionKnown reg (some sid) = false := by
      simp [sessionKnown, hunk]
    constructor
    · simp only [mcpPostAdopt, hk, Bool.false_eq_true, if_false, hinit, if_true,
        Option.getD_some]
      exact Registry.find_store_self _ sid _
    · simp [mcpPostAdopt, hk, hinit]

/-- C1 amended witness: concrete instance with an empty registry, supplied
identifier s1 and a handshake body. -/
theorem c1_amended_witness :
    (mcpPost [] (some "s1") { method := "initialize" } "fresh-1" =
      { registry := []
        response := .jsonError 400 (-32000) "Bad Request: Server not initialized"
        events := [] })
    ∧ (Registry.find
        (mcpPostAdopt [] (some "s1") { method := "initialize" } "fresh-1").registry "s1" =
          some { sessionId := some "s1", closed := false }
      ∧ (mcpPostAdopt [] (some "s1") { method := "initialize" } "fresh-1").response =
          .delegated "s1") :=
  c1_amended [] "s1" { method := "initialize" } "fresh-1" rfl rfl

/-- C2: on a creation-class Submit with a fresh identifier, the record is
stored before the body is handled (the event list is in program order, stored
preceding handled, and the registry stage regAfterStore, observable at the
stored step, already resolves the fresh id); consequently a follow-up request
carrying the minted identifier, whether it races at the regAfterStore stage or
arrives after the request finished, takes the reuse branch and performs no
construction step, so exactly one handler is ever constructed for the id. -/
theorem c2_creation_prestore (reg : Registry) (body follow : Message)
    (fresh fresh2 : String) (_hfresh : Registry.find reg fresh = none)
    (hinit : isInitializeRequest body = true) :
    ((mcpPost reg none body fresh).events =
        [.stored fresh, .connected fresh, .handled fresh])
    ∧ Registry.find (regAfterStore reg fresh) fresh = some newTransport
    ∧ (mcpPost (regAfterStore reg fresh) (some fresh) follow fresh2).events =
        [.handled fresh]
    ∧ (mcpPost (mcpPost reg none body fresh).registry (some fresh) follow fresh2).events =
        [.handled fresh] := by
  refine ⟨by simp [mcpPost, hinit], Registry.find_store_self reg fresh newTransport, ?_, ?_⟩
  · have h := Registry.find_store_self reg fresh newTransport
    simp [mcpPost, regAfterStore] at h ⊢
    simp [h]
  · have h := Registry.find_store_self (regAfterStore reg fresh) fresh
      { sessionId := some fresh, closed := false }
    simp [mcpPost, hinit, regAfterHandle] at h ⊢
    simp [h]

/-- C2 witness: concrete creation on the empty registry with a handshake body
and a tools/list follow-up. -/
theorem c2_creation_prestore_witness :
    ((mcpPost [] none { method := "initialize" } "u-1").events =
        [.stored "u-1", .connected "u-1", .handled "u-1"])
    ∧ Registry.find (regAfterStore [] "u-1") "u-1" = some newTransport
    ∧ (mcpPost (regAfterStore [] "u-1") (some "u-1") { method := "tools/list" } "u-2").events =
        [.handled "u-1"]
    ∧ (mcpPost (mcpPost [] none { method := "initialize" } "u-1").registry
        (some "u-1") { method := "tools/list" } "u-2").events = [.handled "u-1"] :=
  c2_creation_prestore [] { method := "initialize" } { method := "tools/list" }
    "u-1" "u-2" rfl rfl

/-- C3: a Submit with an unmatched (or absent) identifier and a non-creation
body, a StreamRead with an unknown or absent identifier, and a Terminate with
an unknown or absent identifier all fail with the session error response and
leave the registry exactly as it was. -/
theorem c3_no_session_no_service (reg : Registry) (sid : String)
    (body : Message) (fresh : String) :
    (Registry.find reg sid = none → isInitializeRequest body = false →
      mcpPost reg (some sid) body fresh =
        { registry := reg
          response := .jsonError 400 (-32000) "Bad Request: Server not initialized"
          events := [] })
    ∧ (isInitializeRequest body = false →
      mcpPost reg none body fresh =
        { registry := reg
          response := .jsonError 400 (-32000) "Bad Request: Server not initialized"
          events := [] })
    ∧ (Registry.find reg sid = none →
      mcpGet reg (some sid) = (reg, .textBody 400 "Invalid session"))
    ∧ (mcpGet reg none = (reg, .textBody 400 "Invalid session"))
    ∧ (Registry.find reg sid = none →
      mcpDelete reg (some sid) = (reg, .textBody 400 "Invalid session"))
    ∧ (mcpDelete reg none = (reg, .textBody 400 "Invalid session")) := by
  refine ⟨fun hunk _ => by simp [mcpPost, hunk],
    fun hni => by simp [mcpPost, hni],
    fun hunk => by simp [mcpGet, hunk],
    by simp [mcpGet],
    fun hunk => by simp [mcpDelete, hunk],
    by simp [mcpDelete]⟩

/-- C3 witness: concrete unknown identifier s9 over the empty registry with a
tools/list body. -/
theorem c3_no_session_no_service_witness :
    (mcpPost [] (some "s9") { method := "tools/list" } "f-9" =
      { registry := []
        response := .jsonError 400 (-32000) "Bad Request: Server not initialized"
        events := [] })
    ∧ (mcpPost [] none { method := "tools/list" } "f-9" =
      { registry := []
        response := .jsonError 400 (-32000) "Bad Request: Server not initialized"
        events := [] })
    ∧ (mcpGet [] (some "s9") = ([], .textBody 400 "Invalid session"))
    ∧ (mcpDelete [] (some "s9") = ([], .textBody 400 "Invalid session")) := by
  have h := c3_no_session_no_service [] "s9" { method := "tools/list" } "f-9"
  exact ⟨h.1 rfl rfl, h.2.1 rfl, h.2.2.1 rfl, h.2.2.2.2.1 rfl⟩

/-- C4 counterexample: on a registry holding one session S with its assigned
id, the first Terminate is served by the handler of S, but the second
Terminate, against the now-removed record, yields the 400 plain-text invalid
session response — it does not return the same acknowledgment and it fails. -/
theorem c4_counterexample :
    (mcpDelete [("S", { sessionId := some "S", closed := false })] (some "S")).2 =
        .delegated "S"
    ∧ (mcpDelete
        (mcpDelete [("S", { sessionId := some "S", closed := false })] (some "S")).1
        (some "S")).2 = .textBody 400 "Invalid session"
    ∧ (Response.textBody 400 "Invalid session" ≠ Response.delegated "S") := by
  refine ⟨rfl, rfl, by decide⟩

/-- C4 amended: the first Terminate on a record whose transport carries its
own assigned identifier succeeds (delegated to the handler) and removes the
record; the second Terminate on the same identifier, now recordless, fails
with the plain-text invalid-session error and performs no registry mutation —
termination is not idempotent at the router surface. -/
theorem c4_amended (reg : Registry) (sid : String) (t : Transport)
    (hfind : Registry.find reg sid = some t) (hsid : t.sessionId = some sid) :
    ((mcpDelete reg (some sid)).2 = .delegated sid)
    ∧ (Registry.find (mcpDelete reg (some sid)).1 sid = none)
    ∧ (mcpDelete (mcpDelete reg (some sid)).1 (some sid) =
        ((mcpDelete reg (some sid)).1, .textBody 400 "Invalid session")) := by
  have hstep : mcpDelete reg (some sid) = (runOnClose reg t, .delegated sid) := by
    simp [mcpDelete, hfind]
  have hgone : Registry.find (runOnClose reg t) sid = none := by
    rw [runOnClose_assigned reg t sid hsid]
    exact Registry.find_erase_self reg sid
  refine ⟨by rw [hstep], by rw [hstep]; exact hgone, ?_⟩
  rw [hstep]
  simp [mcpDelete, hgone]

/-- C4 amended witness: concrete double Terminate on the one-session
registry. -/
theorem c4_amended_witness :
    ((mcpDelete [("S", { sessionId := some "S", closed := false })] (some "S")).2 =
        .delegated "S")
    ∧ (Registry.find
        (mcpDelete [("S", { sessionId := some "S", closed := false })] (some "S")).1
        "S" = none)
    ∧ (mcpDelete
        (mcpDelete [("S", { sessionId := some "S", closed := false })] (some "S")).1
        (some "S") =
        ((mcpDelete [("S", { sessionId := some "S", closed := false })] (some "S")).1,
          .textBody 400 "Invalid session")) :=
  c4_amended [("S", { sessionId := some "S", closed := false })] "S"
    { sessionId := some "S", closed := false } rfl rfl

/-- C5 counterexample: a StreamRead classification failure (unknown session)
is surfaced as a plain-text body with no numeric code — not as a structured
error envelope — so the structured-envelope guarantee does not hold for all
three transport operations alike. -/
theorem c5_counterexample :
    (mcpGet [] (some "S0")).2 = .textBody 400 "Invalid session"
    ∧ Response.isStructured (mcpGet [] (some "S0")).2 = false := by
  exact ⟨rfl, rfl⟩

/-- C5 amended: only Submit classification failures are surfaced as a
structured JSON-RPC error envelope with the stable code -32000; StreamRead
and Terminate classification failures are surfaced as unstructured plain-text
400 responses carrying no numeric code. -/
theorem c5_amended (reg : Registry) (sid : String) (body : Message)
    (fresh : String) :
    (Registry.find reg sid = none → isInitializeRequest body = false →
      (mcpPost reg (some sid) body fresh).response =
          .jsonError 400 (-32000) "Bad Request: Server not initialized"
        ∧ Response.isStructured (mcpPost reg (some sid) body fresh).response = true)
    ∧ (Registry.find reg sid = none →
      (mcpGet reg (some sid)).2 = .textBody 400 "Invalid session"
        ∧ Response.isStructured (mcpGet reg (some sid)).2 = false)
    ∧ (Registry.find reg sid = none →
      (mcpDelete reg (some sid)).2 = .textBody 400 "Invalid session"
        ∧ Response.isStructured (mcpDelete reg (some sid)).2 = false) := by
  refine ⟨fun hunk hni => ?_, fun hunk => ?_, fun hunk => ?_⟩
  · constructor <;> simp [mcpPost, hunk, Response.isStructured]
  · constructor <;> simp [mcpGet, hunk, Response.isStructured]
  · constructor <;> simp [mcpDelete, hunk, Response.isStructured]

/-- C5 amended witness: concrete unknown identifier s5 over the empty
registry with a tools/list body. -/
theorem c5_amended_witness :
    ((mcpPost [] (some "s5") { method := "tools/list" } "f-5").response =
        .jsonError 400 (-32000) "Bad Request: Server not initialized"
      ∧ Response.isStructured
          (mcpPost [] (some "s5") { method := "tools/list" } "f-5").response = true)
    ∧ ((mcpGet [] (some "s5")).2 = .textBody 400 "Invalid session"
      ∧ Response.isStructured (mcpGet [] (some "s5")).2 = false)
    ∧ ((mcpDelete [] (some "s5")).2 = .textBody 400 "Invalid session"
      ∧ Response.isStructured (mcpDelete [] (some "s5")).2 = false) := by
  have h := c5_amended [] "s5" { method := "tools/list" } "f-5"
  exact ⟨h.1 rfl rfl, h.2.1 rfl, h.2.2 rfl⟩

/-- C7 counterexample: shutdown of a registry holding one mid-creation record
(pre-stored for the minted id, transport session id not yet assigned) invokes
close on that handler, but the close callback removes nothing, so after
shutdown the registry is provably non-empty — the unconditional cleanup claim
fails at this reachable state. -/
theorem c7_counterexample :
    (shutdown (regAfterStore [] "S7")).1 = regAfterStore [] "S7"
    ∧ (shutdown (regAfterStore [] "S7")).1 ≠ []
    ∧ (shutdown (regAfterStore [] "S7")).2 = ["S7"] := by
  refine ⟨rfl, by decide, rfl⟩

/-- C7 amended: shutdown invokes close on every handler currently in the
registry, in snapshot order (each close in its own try/catch, the awaits
sequential rather than independent); afterwards the registry is empty
provided every record holds a transport carrying its own key as assigned
session id — the state every completed creation establishes. A record still
in its creation window (session id unset) survives, its close removing
nothing. -/
theorem c7_amended (reg : Registry) :
    ((shutdown reg).2 = reg.map Prod.fst)
    ∧ ((∀ e ∈ reg, (Prod.snd e).sessionId = some e.1) →
        (shutdown reg).1 = []) := by
  refine ⟨shutdownLoop_calls reg reg, fun hwf => ?_⟩
  apply List.eq_nil_iff_forall_not_mem.mpr
  intro x hx
  obtain ⟨hmem, hnot⟩ := shutdownLoop_mem reg hwf reg x hx
  exact hnot (List.mem_map_of_mem Prod.fst hmem)

/-- C7 amended witness: shutdown of a concrete two-session registry of
completed creations closes both handlers and empties the registry. -/
theorem c7_amended_witness :
    ((shutdown [("A", { sessionId := some "A", closed := false }),
                ("B", { sessionId := some "B", closed := false })]).2 =
        [("A", Transport.mk (some "A") false),
         ("B", Transport.mk (some "B") false)].map Prod.fst)
    ∧ (shutdown [("A", { sessionId := some "A", closed := false }),
                 ("B", { sessionId := some "B", closed := false })]).1 = [] :=
  ⟨(c7_amended
      [("A", { sessionId := some "A", closed := false }),
       ("B", { sessionId := some "B", closed := false })]).1,
   (c7_amended
      [("A", { sessionId := some "A", closed := false }),
       ("B", { sessionId := some "B", closed := false })]).2 (by decide)⟩

/-- C8 counterexample: a record pre-stored for the minted id during the
creation window, whose transport has not yet been assigned its session id,
survives a handler-originated close: the close callback removes nothing, so
the registry entry outlives the closure of its handler. -/
theorem c8_counterexample :
    runOnClose (regAfterStore [] "S8") newTransport = regAfterStore [] "S8"
    ∧ Registry.find (regAfterStore [] "S8") "S8" = some newTransport := by
  exact ⟨rfl, rfl⟩

/-- C8 amended: the close callback attached at creation removes the record
keyed by the transport assigned session identifier, so once the handshake has
assigned the id no registry entry outlives the closure of its handler; but a
close firing before the id is assigned (sessionId still unset, as in the
window between pre-store and handshake processing) removes nothing. -/
theorem c8_amended (reg : Registry) (sid : String) (t : Transport) :
    (t.sessionId = some sid →
      runOnClose reg t = Registry.erase reg sid
        ∧ Registry.find (runOnClose reg t) sid = none)
    ∧ (t.sessionId = none → runOnClose reg t = reg) := by
  refine ⟨fun h => ?_, fun h => ?_⟩
  · refine ⟨runOnClose_assigned reg t sid h, ?_⟩
    rw [runOnClose_assigned reg t sid h]
    exact Registry.find_erase_self reg sid
  · unfold runOnClose
    rw [h]

/-- C8 amended witness: concrete closes of an assigned and an unassigned
transport over the one-session registry. -/
theorem c8_amended_witness :
    (runOnClose [("S8", { sessionId := some "S8", closed := false })]
        { sessionId := some "S8", closed := false } =
      Registry.erase [("S8", { sessionId := some "S8", closed := false })] "S8"
      ∧ Registry.find
          (runOnClose [("S8", { sessionId := some "S8", closed := false })]
            { sessionId := some "S8", closed := false }) "S8" = none)
    ∧ (runOnClose [("S8", { sessionId := some "S8", closed := false })] newTransport =
        [("S8", { sessionId := some "S8", closed := false })]) := by
  have h := c8_amended [("S8", { sessionId := some "S8", closed := false })] "S8"
  exact ⟨(h { sessionId := some "S8", closed := false }).1 rfl,
    (h newTransport).2 rfl⟩

/-- Every get-alerts outcome is a success envelope. -/
theorem getAlertsTool_success (state : String)
    (alertsData : Option AlertsResponse) :
    ∃ ts, getAlertsTool state alertsData = .success ts := by
  unfold getAlertsTool
  rcases alertsData with _ | d
  · exact ⟨_, rfl⟩
  · dsimp only
    split
    · exact ⟨_, rfl⟩
    · exact ⟨_, rfl⟩

/-- Every get-forecast outcome is a success envelope. -/
theorem getForecastTool_success (latitude longitude : Rat)
    (pointsData : Option PointsResponse)
    (forecastData : Option ForecastResponse) :
    ∃ ts, getForecastTool latitude longitude pointsData forecastData =
      .success ts := by
  unfold getForecastTool
  rcases pointsData with _ | pd
  · exact ⟨_, rfl⟩
  · rcases hpf : pd.forecast with _ | u <;> simp only [hpf]
    · exact ⟨_, rfl⟩
    · rcases forecastData with _ | fd
      · exact ⟨_, rfl⟩
      · dsimp only
        split
        · exact ⟨_, rfl⟩
        · exact ⟨_, rfl⟩

/-- C6: neither tool body ever produces a transport-level error, and each
failure mode — failed upstream fetch, unsupported location (failed points
fetch), missing forecast URL, failed forecast fetch, and empty result set —
yields a success envelope whose single text block describes the failure. -/
theorem c6_tool_failures_as_content (state : String) (latitude longitude : Rat)
    (alertsData : Option AlertsResponse) (pointsData : Option PointsResponse)
    (forecastData : Option ForecastResponse) (url : String) :
    ToolOutcome.isTransportError (getAlertsTool state alertsData) = false
    ∧ ToolOutcome.isTransportError
        (getForecastTool latitude longitude pointsData forecastData) = false
    ∧ getAlertsTool state none = .success ["Failed to retrieve alerts data"]
    ∧ getAlertsTool state (some { features := some [] }) =
        .success ["No active alerts for " ++ state.toUpper]
    ∧ getAlertsTool state (some { features := none }) =
        .success ["No active alerts for " ++ state.toUpper]
    ∧ getForecastTool latitude longitude none forecastData =
        .success ["Failed to retrieve grid point data for coordinates: " ++
          toString latitude ++ ", " ++ toString longitude ++
          ". This location may not be supported by the NWS API (only US locations are supported)."]
    ∧ getForecastTool latitude longitude (some { forecast := none }) forecastData =
        .success ["Failed to get forecast URL from grid point data"]
    ∧ getForecastTool latitude longitude (some { forecast := some url }) none =
        .success ["Failed to retrieve forecast data"]
    ∧ getForecastTool latitude longitude (some { forecast := some url })
        (some { periods := some [] }) =
        .success ["No forecast periods available"]
    ∧ getForecastTool latitude longitude (some { forecast := some url })
        (some { periods := none }) =
        .success ["No forecast periods available"] := by
  refine ⟨?_, ?_, rfl, rfl, rfl, rfl, rfl, rfl, rfl, rfl⟩
  · obtain ⟨ts, h⟩ := getAlertsTool_success state alertsData
    rw [h]
    rfl
  · obtain ⟨ts, h⟩ := getForecastTool_success latitude longitude pointsData forecastData
    rw [h]
    rfl

/-- C9: an invocation whose arguments are outside the declared input shape —
a state string of length other than 2, or coordinates outside the inclusive
latitude range [-90, 90] or longitude range [-180, 180] — is rejected by
validation before any upstream request is issued: no request URL is emitted
and the tool body is not run; in-shape arguments reach the tool body. -/
theorem c9_schema_guards (state : String) (latitude longitude : Rat)
    (alertsData : Option AlertsResponse) (pointsData : Option PointsResponse)
    (forecastData : Option ForecastResponse) :
    (state.length ≠ 2 → callGetAlerts state alertsData = (none, []))
    ∧ (¬ ((-90 : Rat) ≤ latitude ∧ latitude ≤ 90 ∧
          (-180 : Rat) ≤ longitude ∧ longitude ≤ 180) →
        callGetForecast latitude longitude pointsData forecastData = (none, []))
    ∧ (state.length = 2 →
        (callGetAlerts state alertsData).1 = some (getAlertsTool state alertsData)
        ∧ (callGetAlerts state alertsData).2 = getAlertsRequests state) := by
  refine ⟨fun hlen => ?_, fun hrange => ?_, fun hlen => ?_⟩
  · simp [callGetAlerts, alertsArgsOk, hlen]
  · simp [callGetForecast, forecastArgsOk, hrange]
  · constructor <;> simp [callGetAlerts, alertsArgsOk, hlen]

/-- C9 witness: the three-letter code CAL and the out-of-range latitude 91
are rejected with no upstream request; the in-shape code CA reaches the tool
body. -/
theorem c9_schema_guards_witness :
    callGetAlerts "CAL" none = (none, [])
    ∧ callGetForecast 91 0 none none = (none, [])
    ∧ (callGetAlerts "CA" none).1 = some (getAlertsTool "CA" none) := by
  refine ⟨?_, ?_, ?_⟩
  · exact (c9_schema_guards "CAL" 0 0 none none none).1 (by decide)
  · exact (c9_schema_guards "CA" 91 0 none none none).2.1 (by
      intro h
      have : (91 : Rat) ≤ 90 := h.2.1
      norm_num at this)
  · exact ((c9_schema_guards "CA" 0 0 none none none).2.2 (by decide)).1

/-- C10: in the formatted forecast, a period whose temperature is exactly 0
renders as Temperature: Unknown with the unit, because the JS missing-field
substitution treats the falsy number 0 as absent; in the same way an
empty-string name, windSpeed, or shortForecast renders as its placeholder
text. -/
theorem c10_falsy_zero_temperature (p : ForecastPeriod)
    (h0 : p.temperature = some 0) (hu : p.temperatureUnit = some "F")
    (hn : p.name = some "") (hw : p.windSpeed = some "")
    (hd : p.windDirection = some "NW") (hs : p.shortForecast = some "") :
    formatLines p = ["Unknown:", "Temperature: Unknown°F", "Wind: Unknown NW",
      "No forecast available", "---"]
    ∧ formatPeriod p =
        "Unknown:\nTemperature: Unknown°F\nWind: Unknown NW\nNo forecast available\n---" := by
  obtain ⟨n, t, u, w, d, s⟩ := p
  simp only at h0 hu hn hw hd hs
  subst h0 hu hn hw hd hs
  exact ⟨rfl, rfl⟩

/-- C10 witness: the concrete zero-temperature period with empty strings in
the falsy-substituted fields. -/
theorem c10_falsy_zero_temperature_witness :
    formatLines
        { name := some "", temperature := some 0, temperatureUnit := some "F",
          windSpeed := some "", windDirection := some "NW",
          shortForecast := some "" } =
      ["Unknown:", "Temperature: Unknown°F", "Wind: Unknown NW",
        "No forecast available", "---"]
    ∧ formatPeriod
        { name := some "", temperature := some 0, temperatureUnit := some "F",
          windSpeed := some "", windDirection := some "NW",
          shortForecast := some "" } =
      "Unknown:\nTemperature: Unknown°F\nWind: Unknown NW\nNo forecast available\n---" :=
  c10_falsy_zero_temperature
    { name := some "", temperature := some 0, temperatureUnit := some "F",
      windSpeed := some "", windDirection := some "NW", shortForecast := some "" }
    rfl rfl rfl rfl rfl rfl

end McpServer
